import Mathlib

/-!
Shallow embedding of `src/devkit-power-source.c` (DeviceKit-power power-source
entity): battery metric derivation, state classification, object-path
computation, poll-timer scheduling, change notification and construction.

C `double` values are modelled by `DReal`: finite rationals plus signed
infinities and NaN, with the IEEE-754 behaviour of the operations the source
uses (division by zero, quiet-NaN comparisons).  Finite arithmetic is exact
(no rounding), which is faithful for every property considered here.
-/

namespace DevkitPower

/-- IEEE-754-style value of a C `double`: NaN, signed infinity (`inf true` is
positive infinity), or a finite value (modelled exactly as a rational). -/
inductive DReal where
  | nan : DReal
  | inf : Bool → DReal
  | fin : ℚ → DReal
deriving DecidableEq

/-- IEEE `<` on doubles: any comparison against NaN is false. -/
def DReal.lt : DReal → DReal → Bool
  | DReal.nan, _ => false
  | _, DReal.nan => false
  | DReal.inf b1, DReal.inf b2 => !b1 && b2
  | DReal.inf b1, DReal.fin _ => !b1
  | DReal.fin _, DReal.inf b2 => b2
  | DReal.fin a, DReal.fin b => decide (a < b)

/-- IEEE division: x/0 is NaN for x = 0 and a signed infinity otherwise
(the source never produces a negative zero divisor). -/
def DReal.div : DReal → DReal → DReal
  | DReal.nan, _ => DReal.nan
  | _, DReal.nan => DReal.nan
  | DReal.inf _, DReal.inf _ => DReal.nan
  | DReal.inf b, DReal.fin q => if q < 0 then DReal.inf (!b) else DReal.inf b
  | DReal.fin _, DReal.inf _ => DReal.fin 0
  | DReal.fin a, DReal.fin b =>
      if b = 0 then (if a = 0 then DReal.nan else DReal.inf (decide (0 < a)))
      else DReal.fin (a / b)

/-- IEEE multiplication: 0 times infinity is NaN. -/
def DReal.mul : DReal → DReal → DReal
  | DReal.nan, _ => DReal.nan
  | _, DReal.nan => DReal.nan
  | DReal.inf b1, DReal.inf b2 => DReal.inf (b1 == b2)
  | DReal.inf b1, DReal.fin q => if q = 0 then DReal.nan else DReal.inf (b1 == decide (0 < q))
  | DReal.fin q, DReal.inf b2 => if q = 0 then DReal.nan else DReal.inf (b2 == decide (0 < q))
  | DReal.fin a, DReal.fin b => DReal.fin (a * b)

/-- C `fabs`. -/
def DReal.fabs : DReal → DReal
  | DReal.nan => DReal.nan
  | DReal.inf _ => DReal.inf true
  | DReal.fin q => DReal.fin |q|

/-- `g_ascii_isspace`: the six ASCII whitespace characters. -/
def g_ascii_isspace (c : Char) : Bool :=
  c = ' ' || c = '\t' || c = '\n' || c = '\x0b' || c = '\x0c' || c = '\r'

/-- `g_strstrip`: remove leading and trailing ASCII whitespace in place. -/
def g_strstrip (s : String) : String :=
  String.mk (((s.data.dropWhile g_ascii_isspace).reverse.dropWhile g_ascii_isspace).reverse)

/-- `strcasecmp (a, b) == 0`: ASCII case-insensitive string equality. -/
def strcasecmpEq (a b : String) : Bool :=
  a.data.map Char.toLower == b.data.map Char.toLower

/-- `g_path_get_basename`: "" gives ".", an all-separator path gives "/",
otherwise the last component after stripping trailing separators. -/
def g_path_get_basename (file_name : String) : String :=
  if file_name.data.isEmpty then "." else
  if (file_name.data.reverse.dropWhile (fun c => c == '/')).isEmpty then "/" else
  String.mk ((file_name.data.reverse.dropWhile (fun c => c == '/')).takeWhile
    (fun c => !(c == '/'))).reverse

/-- `g_build_filename (first, second, NULL)`: join two components with a
single separator, collapsing separators at the junction. -/
def g_build_filename2 (first second : String) : String :=
  if (second.data.dropWhile (fun c => c == '/')).isEmpty then
    String.mk (first.data.reverse.dropWhile (fun c => c == '/')).reverse
  else
    String.mk ((first.data.reverse.dropWhile (fun c => c == '/')).reverse ++
      '/' :: second.data.dropWhile (fun c => c == '/'))

/-- `DK_POWER_MIN_CHARGED_PERCENTAGE` from the source (value 60). -/
def DK_POWER_MIN_CHARGED_PERCENTAGE : ℚ := 60

/-- `DevkitPowerType`: fixed at construction from the presence of an
`online` attribute. -/
inductive DevkitPowerType where
  | linePower : DevkitPowerType
  | battery : DevkitPowerType
deriving DecidableEq

/-- `DevkitPowerState`: the battery state enum.  `unknown` stands for the
zero-initialised value a fresh GObject carries before the first update
(the enum itself lives in a header outside `src/`). -/
inductive DevkitPowerState where
  | unknown : DevkitPowerState
  | charging : DevkitPowerState
  | discharging : DevkitPowerState
  | empty : DevkitPowerState
  | fullyCharged : DevkitPowerState
deriving DecidableEq

/-- Battery technology enum (`devkit-power-enum.h`, outside `src/`). -/
inductive DevkitPowerTechnology where
  | unknown : DevkitPowerTechnology
  | lithiumIon : DevkitPowerTechnology
  | leadAcid : DevkitPowerTechnology
  | lithiumPolymer : DevkitPowerTechnology
  | nickelMetalHydride : DevkitPowerTechnology
deriving DecidableEq

/-- Modelled from the spec: `devkit_power_convert_acpi_technology_to_enum`
lives in the enum helper file that is not under `src/`; per the spec the
free-text `technology` attribute parses into the technology enum and unknown
strings map to `Unknown`. -/
def devkit_power_convert_acpi_technology_to_enum (s : String) : DevkitPowerTechnology :=
  if s = "Li-ion" then DevkitPowerTechnology.lithiumIon
  else if s = "Pb" then DevkitPowerTechnology.leadAcid
  else if s = "Li-poly" then DevkitPowerTechnology.lithiumPolymer
  else if s = "NiMH" then DevkitPowerTechnology.nickelMetalHydride
  else DevkitPowerTechnology.unknown

/-- Modelled from the spec: the sysfs attribute readers (`sysfs_file_exists`,
`sysfs_get_string`, `sysfs_get_int`, `sysfs_get_double` of `sysfs-utils.c`)
are not under `src/`.  Their call sites in `src/` use them as total,
value-returning reads with no error channel; a missing attribute reads as
the empty string / 0. -/
structure SysfsEnv where
  fileExists : String → String → Bool
  getString : String → String → String
  getInt : String → String → Int
  getDouble : String → String → ℚ

/-- `struct DevkitPowerSourcePrivate`.  `poll_timer_id` is a `guint` where 0
means "no timer armed"; `vendor = none` models the NULL vendor pointer that
marks the first `update` call. -/
structure DevkitPowerSourcePrivate where
  native_path : String
  object_path : Option String
  poll_timer_id : ℕ
  vendor : Option String
  model : Option String
  serial : Option String
  update_time : ℕ
  type : DevkitPowerType
  line_power_online : Int
  battery_state : DevkitPowerState
  battery_technology : DevkitPowerTechnology
  battery_energy : DReal
  battery_energy_empty : DReal
  battery_energy_full : DReal
  battery_energy_full_design : DReal
  battery_energy_rate : DReal
  battery_time_to_empty : Int
  battery_time_to_full : Int
  battery_percentage : DReal
deriving DecidableEq

/-- Zero-initialised GObject state followed by `devkit_power_source_init`
(which sets the two time sentinels to -1); `type` is assigned in
`devkit_power_source_new` right after allocation. -/
def devkit_power_source_init (native_path : String) (t : DevkitPowerType) :
    DevkitPowerSourcePrivate :=
  { native_path := native_path
    object_path := none
    poll_timer_id := 0
    vendor := none
    model := none
    serial := none
    update_time := 0
    type := t
    line_power_online := 0
    battery_state := DevkitPowerState.unknown
    battery_technology := DevkitPowerTechnology.unknown
    battery_energy := DReal.fin 0
    battery_energy_empty := DReal.fin 0
    battery_energy_full := DReal.fin 0
    battery_energy_full_design := DReal.fin 0
    battery_energy_rate := DReal.fin 0
    battery_time_to_empty := -1
    battery_time_to_full := -1
    battery_percentage := DReal.fin 0 }

/-- `compute_object_path_from_basename`: take the basename, replace every
'-' by '_', and prepend the "/sources/" namespace root. -/
def compute_object_path_from_basename (native_path_basename : String) : String :=
  g_build_filename2 "/sources/"
    (String.mk ((g_path_get_basename native_path_basename).data.map
      (fun c => if c == '-' then '_' else c)))

/-- `compute_object_path`. -/
def compute_object_path (native_path : String) : String :=
  compute_object_path_from_basename (g_path_get_basename native_path)

/-- `update_line_power`: read the `online` attribute; always succeeds. -/
def update_line_power (env : SysfsEnv) (p : DevkitPowerSourcePrivate) :
    DevkitPowerSourcePrivate × Bool :=
  ({ p with line_power_online := env.getInt p.native_path "online" }, true)

/-- `update_battery`: derive the battery metrics from the raw attributes,
exactly as lines 482-529 of the source. -/
def update_battery (env : SysfsEnv) (p : DevkitPowerSourcePrivate) :
    DevkitPowerSourcePrivate × Bool :=
  let status := g_strstrip (env.getString p.native_path "status")
  let is_charging := strcasecmpEq status "charging"
  let is_discharging := strcasecmpEq status "discharging"
  let battery_energy :=
    DReal.div (DReal.fin (env.getDouble p.native_path "energy_now")) (DReal.fin 1000000)
  let battery_energy_full :=
    DReal.div (DReal.fin (env.getDouble p.native_path "energy_full")) (DReal.fin 1000000)
  let battery_energy_full_design :=
    DReal.div (DReal.fin (env.getDouble p.native_path "energy_full_design")) (DReal.fin 1000000)
  let rate0 :=
    DReal.fabs (DReal.div (DReal.fin (env.getDouble p.native_path "current_now")) (DReal.fin 1000000))
  let battery_energy_rate := if is_charging then DReal.mul rate0 (DReal.fin (-1)) else rate0
  let pct0 := DReal.div (DReal.mul (DReal.fin 100) battery_energy) battery_energy_full
  let pct1 := if DReal.lt pct0 (DReal.fin 0) then DReal.fin 0 else pct0
  let pct2 := if DReal.lt (DReal.fin 100) pct1 then DReal.fin 100 else pct1
  let battery_state :=
    if is_charging then DevkitPowerState.charging
    else if is_discharging then DevkitPowerState.discharging
    else if DReal.lt (DReal.fin DK_POWER_MIN_CHARGED_PERCENTAGE) pct2 then
      DevkitPowerState.fullyCharged
    else DevkitPowerState.empty
  ({ p with
      battery_energy := battery_energy
      battery_energy_full := battery_energy_full
      battery_energy_full_design := battery_energy_full_design
      battery_energy_rate := battery_energy_rate
      battery_percentage := pct2
      battery_state := battery_state }, true)

/-- The GLib main loop's timeout sources attached to one power source:
`g_timeout_add_seconds` hands out fresh positive ids; `armed` holds the
currently registered (id, interval) timeout sources. -/
structure MainLoop where
  nextId : ℕ
  armed : List (ℕ × ℕ)
deriving DecidableEq

/-- `g_timeout_add_seconds (interval, callback, source)`: register a new
timeout source and return its (fresh, nonzero) id. -/
def g_timeout_add_seconds (interval : ℕ) (ml : MainLoop) : ℕ × MainLoop :=
  (ml.nextId, { nextId := ml.nextId + 1, armed := ml.armed ++ [(ml.nextId, interval)] })

/-- `g_source_remove (id)`: destroy the timeout source with the given id. -/
def g_source_remove (id : ℕ) (ml : MainLoop) : MainLoop :=
  { ml with armed := ml.armed.filter (fun t => !(t.1 == id)) }

/-- One power source together with its main-loop timers and observation
counters for updates, emitted change notifications and bus replies. -/
structure World where
  src : DevkitPowerSourcePrivate
  loop : MainLoop
  updateCount : ℕ
  notifyCount : ℕ
  repliesSent : ℕ
deriving DecidableEq

/-- `emit_changed`: notify the daemon and emit the local "changed" signal
(counted as one change notification). -/
def emit_changed (w : World) : World :=
  { w with notifyCount := w.notifyCount + 1 }

/-- The first-update branch of `update` (`vendor == NULL`): read the static
fields `technology`, `manufacturer`, `model_name`, `serial_number`. -/
def update_read_static_fields (env : SysfsEnv) (p : DevkitPowerSourcePrivate) :
    DevkitPowerSourcePrivate :=
  { p with
      battery_technology :=
        devkit_power_convert_acpi_technology_to_enum
          (g_strstrip (env.getString p.native_path "technology"))
      vendor := some (g_strstrip (env.getString p.native_path "manufacturer"))
      model := some (g_strstrip (env.getString p.native_path "model_name"))
      serial := some (g_strstrip (env.getString p.native_path "serial_number")) }

/-- `update` (lines 541-588): disarm any pending poll timer, read the static
fields on the first call, stamp the update time, dispatch on the device
type, and for batteries arm a fresh 30-second poll timer. -/
def update (env : SysfsEnv) (now : ℕ) (w : World) : World × Bool :=
  let loop1 := if 0 < w.src.poll_timer_id then g_source_remove w.src.poll_timer_id w.loop
               else w.loop
  let p1 := if 0 < w.src.poll_timer_id then { w.src with poll_timer_id := 0 } else w.src
  let p2 := if p1.vendor = none then update_read_static_fields env p1 else p1
  let p3 := { p2 with update_time := now }
  match p3.type with
  | DevkitPowerType.linePower =>
      let pr := update_line_power env p3
      ({ w with src := pr.1, loop := loop1, updateCount := w.updateCount + 1 }, pr.2)
  | DevkitPowerType.battery =>
      let pr := update_battery env p3
      let t := g_timeout_add_seconds 30 loop1
      ({ w with src := { pr.1 with poll_timer_id := t.1 }, loop := t.2,
                updateCount := w.updateCount + 1 }, pr.2)

/-- `_poll_battery` (lines 531-539): the poll-timer callback clears the
stored timer id, forces an `update`, emits the change notification and
returns FALSE so GLib destroys the firing source. -/
def poll_battery_callback (env : SysfsEnv) (now : ℕ) (w : World) : World × Bool :=
  let w0 := { w with src := { w.src with poll_timer_id := 0 } }
  let u := update env now w0
  (emit_changed u.1, false)

/-- GLib dispatch of timeout source `id`: run the callback; a FALSE return
destroys the firing source. -/
def fire_poll_timer (env : SysfsEnv) (now : ℕ) (id : ℕ) (w : World) : World :=
  let u := poll_battery_callback env now w
  if u.2 then u.1 else { u.1 with loop := g_source_remove id u.1.loop }

/-- `devkit_power_source_changed` (lines 439-459): re-run `update`; on
success emit the change notification and report "keep", otherwise report
that the source should be removed. -/
def devkit_power_source_changed (env : SysfsEnv) (now : ℕ) (w : World) : World × Bool :=
  let u := update env now w
  if u.2 then (emit_changed u.1, u.2) else (u.1, u.2)

/-- `devkit_power_source_refresh` (lines 592-599): force an `update`, then
send the synchronous void bus reply. -/
def devkit_power_source_refresh (env : SysfsEnv) (now : ℕ) (w : World) : World × Bool :=
  let u := update env now w
  ({ u.1 with repliesSent := u.1.repliesSent + 1 }, true)

/-- `register_power_source`: on bus success compute and store the object
path and register the object; `busOk` models whether the system bus is
available. -/
def register_power_source (busOk : Bool) (p : DevkitPowerSourcePrivate) :
    Option DevkitPowerSourcePrivate :=
  if busOk then some { p with object_path := some (compute_object_path p.native_path) }
  else none

/-- `devkit_power_source_new` (lines 391-426): classify the type from the
`online` attribute, run the initial `update`, then register on the bus;
any failure discards the object and yields no entity. -/
def devkit_power_source_new (env : SysfsEnv) (now : ℕ) (native_path : String)
    (busOk : Bool) (loop : MainLoop) : Option World :=
  let t := if env.fileExists native_path "online" then DevkitPowerType.linePower
           else DevkitPowerType.battery
  let w0 : World :=
    { src := devkit_power_source_init native_path t, loop := loop,
      updateCount := 0, notifyCount := 0, repliesSent := 0 }
  let u := update env now w0
  if u.2 then
    match register_power_source busOk u.1.src with
    | some p => some { u.1 with src := p }
    | none => none
  else none

/-- At most one poll timer is tracked and armed: the stored id is 0 with no
armed source, or nonzero with exactly that source armed at 30 seconds; ids
are fresh (below `nextId`, which stays positive). -/
def timerInv (w : World) : Prop :=
  1 ≤ w.loop.nextId ∧ w.src.poll_timer_id < w.loop.nextId ∧
  ((w.src.poll_timer_id = 0 ∧ w.loop.armed = []) ∨
   (w.src.poll_timer_id ≠ 0 ∧ w.loop.armed = [(w.src.poll_timer_id, 30)]))

/-- The main loop right after the disarm step at the top of `update`. -/
def loopAfterDisarm (w : World) : MainLoop :=
  if 0 < w.src.poll_timer_id then g_source_remove w.src.poll_timer_id w.loop else w.loop

/-- A sysfs environment for a battery device: the named attributes have the
given raw (micro-unit) values, everything else is absent and reads as
empty/zero. -/
def batteryEnv (status : String) (energy_now energy_full energy_full_design current_now : ℚ) :
    SysfsEnv :=
  { fileExists := fun _ _ => false
    getString := fun _ a => if a = "status" then status else ""
    getInt := fun _ _ => 0
    getDouble := fun _ a =>
      if a = "energy_now" then energy_now
      else if a = "energy_full" then energy_full
      else if a = "energy_full_design" then energy_full_design
      else if a = "current_now" then current_now else 0 }

/-- A sysfs environment in which every attribute is missing: strings read as
empty, numbers as zero, nothing exists. -/
def missingAttrEnv : SysfsEnv :=
  { fileExists := fun _ _ => false
    getString := fun _ _ => ""
    getInt := fun _ _ => 0
    getDouble := fun _ _ => 0 }

/-- A freshly initialised battery source (as right after `g_object_new` in
`devkit_power_source_new`). -/
def pBatt0 : DevkitPowerSourcePrivate :=
  devkit_power_source_init "BAT0" DevkitPowerType.battery

/-- An empty main loop. -/
def loop0 : MainLoop := { nextId := 1, armed := [] }

/-- A battery world with one armed 30-second poll timer (id 1), as left by a
previous battery `update`. -/
def wBatt1 : World :=
  { src := { pBatt0 with poll_timer_id := 1 }
    loop := { nextId := 2, armed := [(1, 30)] }
    updateCount := 1, notifyCount := 0, repliesSent := 0 }

/-- A line-power world with no armed timer. -/
def wLine0 : World :=
  { src := devkit_power_source_init "AC" DevkitPowerType.linePower
    loop := loop0
    updateCount := 0, notifyCount := 0, repliesSent := 0 }

/-- Vendor field of a construction result, when one was published. -/
def newSourceVendor (o : Option World) : Option (Option String) :=
  o.map (fun w => w.src.vendor)

/-- The `is_charging` flag computed by `update_battery`. -/
def isChargingOf (env : SysfsEnv) (p : DevkitPowerSourcePrivate) : Bool :=
  strcasecmpEq (g_strstrip (env.getString p.native_path "status")) "charging"

/-- The `is_discharging` flag computed by `update_battery`. -/
def isDischargingOf (env : SysfsEnv) (p : DevkitPowerSourcePrivate) : Bool :=
  strcasecmpEq (g_strstrip (env.getString p.native_path "status")) "discharging"

/-- The percentage as the spec words it: `100 * energy / energy_full`,
clamped to the interval [0, 100] (inputs already in public units). -/
def specPercentage (energy energy_full : ℚ) : ℚ :=
  max 0 (min 100 (100 * energy / energy_full))

/- ------------------------------------------------------------------ -/
/- Helper lemmas. -/

lemma batteryEnv_getString_status (st : String) (e f fd c : ℚ) (p : String) :
    (batteryEnv st e f fd c).getString p "status" = st := rfl

lemma batteryEnv_getDouble_energy_now (st : String) (e f fd c : ℚ) (p : String) :
    (batteryEnv st e f fd c).getDouble p "energy_now" = e := rfl

lemma batteryEnv_getDouble_energy_full (st : String) (e f fd c : ℚ) (p : String) :
    (batteryEnv st e f fd c).getDouble p "energy_full" = f := rfl

lemma batteryEnv_getDouble_current_now (st : String) (e f fd c : ℚ) (p : String) :
    (batteryEnv st e f fd c).getDouble p "current_now" = c := rfl

lemma DReal.div_fin_fin (a b : ℚ) (hb : b ≠ 0) :
    DReal.div (DReal.fin a) (DReal.fin b) = DReal.fin (a / b) := by
  simp [DReal.div, hb]

lemma DReal.div_fin_zero (a : ℚ) :
    DReal.div (DReal.fin a) (DReal.fin 0) =
      if a = 0 then DReal.nan else DReal.inf (decide (0 < a)) := by
  simp [DReal.div]

lemma DReal.mul_fin_fin (a b : ℚ) :
    DReal.mul (DReal.fin a) (DReal.fin b) = DReal.fin (a * b) := rfl

lemma DReal.fabs_fin (a : ℚ) : DReal.fabs (DReal.fin a) = DReal.fin |a| := rfl

lemma DReal.lt_fin_fin (a b : ℚ) : DReal.lt (DReal.fin a) (DReal.fin b) = decide (a < b) := rfl

lemma DReal.lt_nan_left (x : DReal) : DReal.lt DReal.nan x = false := by
  cases x <;> rfl

lemma DReal.lt_nan_right (x : DReal) : DReal.lt x DReal.nan = false := by
  cases x <;> rfl

lemma DReal.lt_fin_posinf (a : ℚ) : DReal.lt (DReal.fin a) (DReal.inf true) = true := rfl

lemma DReal.lt_posinf_fin (a : ℚ) : DReal.lt (DReal.inf true) (DReal.fin a) = false := rfl

lemma DReal.lt_neginf_fin (a : ℚ) : DReal.lt (DReal.inf false) (DReal.fin a) = true := rfl

lemma update_battery_snd (env : SysfsEnv) (p : DevkitPowerSourcePrivate) :
    (update_battery env p).2 = true := rfl

lemma update_line_power_snd (env : SysfsEnv) (p : DevkitPowerSourcePrivate) :
    (update_line_power env p).2 = true := rfl

lemma update_battery_state_eq (env : SysfsEnv) (p : DevkitPowerSourcePrivate) :
    (update_battery env p).1.battery_state =
      (if isChargingOf env p then DevkitPowerState.charging
       else if isDischargingOf env p then DevkitPowerState.discharging
       else if DReal.lt (DReal.fin DK_POWER_MIN_CHARGED_PERCENTAGE)
                 ((update_battery env p).1.battery_percentage) then
         DevkitPowerState.fullyCharged
       else DevkitPowerState.empty) := rfl

lemma update_battery_percentage_eq (env : SysfsEnv) (p : DevkitPowerSourcePrivate) :
    (update_battery env p).1.battery_percentage =
      (let pct0 := DReal.div
        (DReal.mul (DReal.fin 100)
          (DReal.div (DReal.fin (env.getDouble p.native_path "energy_now")) (DReal.fin 1000000)))
        (DReal.div (DReal.fin (env.getDouble p.native_path "energy_full")) (DReal.fin 1000000));
       let pct1 := if DReal.lt pct0 (DReal.fin 0) then DReal.fin 0 else pct0;
       if DReal.lt (DReal.fin 100) pct1 then DReal.fin 100 else pct1) := rfl

lemma update_battery_rate_eq (env : SysfsEnv) (p : DevkitPowerSourcePrivate) :
    (update_battery env p).1.battery_energy_rate =
      (let rate0 := DReal.fabs (DReal.div
        (DReal.fin (env.getDouble p.native_path "current_now")) (DReal.fin 1000000));
       if isChargingOf env p then DReal.mul rate0 (DReal.fin (-1)) else rate0) := rfl

/-- Closed form of the stored percentage when `energy_full` is nonzero. -/
lemma update_battery_percentage_formula (env : SysfsEnv) (p : DevkitPowerSourcePrivate)
    (hfull : env.getDouble p.native_path "energy_full" ≠ 0) :
    (update_battery env p).1.battery_percentage =
      (if 100 * (env.getDouble p.native_path "energy_now" / 1000000) /
            (env.getDouble p.native_path "energy_full" / 1000000) < 0 then DReal.fin 0
       else if 100 < 100 * (env.getDouble p.native_path "energy_now" / 1000000) /
            (env.getDouble p.native_path "energy_full" / 1000000) then DReal.fin 100
       else DReal.fin (100 * (env.getDouble p.native_path "energy_now" / 1000000) /
            (env.getDouble p.native_path "energy_full" / 1000000))) := by
  have h6 : (1000000 : ℚ) ≠ 0 := by norm_num
  have hf6 : env.getDouble p.native_path "energy_full" / 1000000 ≠ 0 := div_ne_zero hfull h6
  rw [update_battery_percentage_eq]
  rw [DReal.div_fin_fin _ _ h6, DReal.div_fin_fin _ _ h6, DReal.mul_fin_fin,
      DReal.div_fin_fin _ _ hf6]
  simp only [DReal.lt_fin_fin, decide_eq_true_eq]
  by_cases h0 : 100 * (env.getDouble p.native_path "energy_now" / 1000000) /
      (env.getDouble p.native_path "energy_full" / 1000000) < 0
  · rw [if_pos h0, if_pos h0, if_neg]
    simp only [DReal.lt_fin_fin, decide_eq_true_eq]
    norm_num
  · rw [if_neg h0, if_neg h0]
    simp only [DReal.lt_fin_fin, decide_eq_true_eq]

/-- Closed form of the stored energy rate. -/
lemma update_battery_rate_formula (env : SysfsEnv) (p : DevkitPowerSourcePrivate) :
    (update_battery env p).1.battery_energy_rate =
      (if isChargingOf env p then
        DReal.fin (-(|env.getDouble p.native_path "current_now"| / 1000000))
       else DReal.fin (|env.getDouble p.native_path "current_now"| / 1000000)) := by
  have h6 : (1000000 : ℚ) ≠ 0 := by norm_num
  rw [update_battery_rate_eq]
  simp only [DReal.div_fin_fin _ _ h6, DReal.fabs_fin, DReal.mul_fin_fin]
  have habs : |env.getDouble p.native_path "current_now" / 1000000| =
      |env.getDouble p.native_path "current_now"| / 1000000 := by
    rw [abs_div]
    norm_num
  by_cases hc : isChargingOf env p
  · rw [if_pos hc, if_pos hc, habs]
    ring_nf
  · rw [if_neg hc, if_neg hc, habs]

/-- Percentage evaluation at a concrete in-range battery environment. -/
lemma concrete_percentage (st : String) (e f fd c q : ℚ) (hf : f ≠ 0)
    (h1 : ¬ 100 * (e / 1000000) / (f / 1000000) < 0)
    (h2 : ¬ 100 < 100 * (e / 1000000) / (f / 1000000))
    (h3 : 100 * (e / 1000000) / (f / 1000000) = q) :
    (update_battery (batteryEnv st e f fd c) pBatt0).1.battery_percentage = DReal.fin q := by
  rw [update_battery_percentage_formula _ _
        (by rw [batteryEnv_getDouble_energy_full]; exact hf)]
  rw [batteryEnv_getDouble_energy_now, batteryEnv_getDouble_energy_full]
  rw [if_neg h1, if_neg h2, h3]

/-- Stored percentage when `energy_full` reads as zero: the IEEE pipeline
yields NaN for zero energy and a clamped infinity otherwise. -/
lemma update_battery_percentage_full_zero (env : SysfsEnv) (p : DevkitPowerSourcePrivate)
    (hfull : env.getDouble p.native_path "energy_full" = 0) :
    (update_battery env p).1.battery_percentage =
      (if 0 < env.getDouble p.native_path "energy_now" then DReal.fin 100
       else if env.getDouble p.native_path "energy_now" < 0 then DReal.fin 0
       else DReal.nan) := by
  have h6 : (1000000 : ℚ) ≠ 0 := by norm_num
  rw [update_battery_percentage_eq, hfull]
  rw [DReal.div_fin_fin _ _ h6, DReal.div_fin_fin _ _ h6, DReal.mul_fin_fin, zero_div,
      DReal.div_fin_zero]
  rcases lt_trichotomy (env.getDouble p.native_path "energy_now") 0 with h | h | h
  · have ha : 100 * (env.getDouble p.native_path "energy_now" / 1000000) < 0 :=
      mul_neg_of_pos_of_neg (by norm_num)
        (div_neg_of_neg_of_pos h (by norm_num))
    rw [if_neg (ne_of_lt ha)]
    rw [show decide (0 < 100 * (env.getDouble p.native_path "energy_now" / 1000000)) = false
          from by simp [not_lt.mpr (le_of_lt ha)]]
    norm_num [DReal.lt_neginf_fin, DReal.lt_fin_fin]
    rw [if_neg (asymm h), if_pos h]
  · have ha : 100 * (env.getDouble p.native_path "energy_now" / 1000000) = 0 := by
      rw [h]; norm_num
    rw [if_pos ha]
    norm_num [DReal.lt_nan_left, DReal.lt_nan_right]
    rw [if_neg (by rw [h]; exact lt_irrefl 0), if_neg (by rw [h]; exact lt_irrefl 0)]
  · have ha : 0 < 100 * (env.getDouble p.native_path "energy_now" / 1000000) :=
      mul_pos (by norm_num) (div_pos h (by norm_num))
    rw [if_neg (ne_of_gt ha)]
    rw [show decide (0 < 100 * (env.getDouble p.native_path "energy_now" / 1000000)) = true
          from by simp [ha]]
    norm_num [DReal.lt_posinf_fin, DReal.lt_fin_posinf]
    rw [if_pos h]

/- ------------------------------------------------------------------ -/
/- Claims. -/

/-- C1: on every battery update the state is classified with exactly this
precedence: Charging when the trimmed status equals "charging"
case-insensitively, else Discharging when it equals "discharging", else
FullyCharged when the computed percentage is strictly greater than 60, else
Empty; in particular status "charging" at percentage 10 gives Charging,
empty status at percentage 75 gives FullyCharged, empty status at exactly
percentage 60 gives Empty, and status "discharging" at percentage 95 gives
Discharging. -/
theorem C1_battery_state_precedence :
    (∀ (env : SysfsEnv) (p : DevkitPowerSourcePrivate),
      (update_battery env p).1.battery_state =
        (if isChargingOf env p then DevkitPowerState.charging
         else if isDischargingOf env p then DevkitPowerState.discharging
         else if DReal.lt (DReal.fin DK_POWER_MIN_CHARGED_PERCENTAGE)
                   ((update_battery env p).1.battery_percentage) then
           DevkitPowerState.fullyCharged
         else DevkitPowerState.empty)) ∧
    (update_battery (batteryEnv "charging" 10000000 100000000 0 0) pBatt0).1.battery_percentage
      = DReal.fin 10 ∧
    (update_battery (batteryEnv "charging" 10000000 100000000 0 0) pBatt0).1.battery_state
      = DevkitPowerState.charging ∧
    (update_battery (batteryEnv "" 75000000 100000000 0 0) pBatt0).1.battery_percentage
      = DReal.fin 75 ∧
    (update_battery (batteryEnv "" 75000000 100000000 0 0) pBatt0).1.battery_state
      = DevkitPowerState.fullyCharged ∧
    (update_battery (batteryEnv "" 60000000 100000000 0 0) pBatt0).1.battery_percentage
      = DReal.fin 60 ∧
    (update_battery (batteryEnv "" 60000000 100000000 0 0) pBatt0).1.battery_state
      = DevkitPowerState.empty ∧
    (update_battery (batteryEnv "discharging" 95000000 100000000 0 0) pBatt0).1.battery_percentage
      = DReal.fin 95 ∧
    (update_battery (batteryEnv "discharging" 95000000 100000000 0 0) pBatt0).1.battery_state
      = DevkitPowerState.discharging := by
  have hp10 := concrete_percentage "charging" 10000000 100000000 0 0 10
    (by norm_num) (by norm_num) (by norm_num) (by norm_num)
  have hp75 := concrete_percentage "" 75000000 100000000 0 0 75
    (by norm_num) (by norm_num) (by norm_num) (by norm_num)
  have hp60 := concrete_percentage "" 60000000 100000000 0 0 60
    (by norm_num) (by norm_num) (by norm_num) (by norm_num)
  have hp95 := concrete_percentage "discharging" 95000000 100000000 0 0 95
    (by norm_num) (by norm_num) (by norm_num) (by norm_num)
  refine ⟨fun env p => update_battery_state_eq env p, hp10, ?_, hp75, ?_, hp60, ?_, hp95, ?_⟩
  · rw [update_battery_state_eq]
    rw [show isChargingOf (batteryEnv "charging" 10000000 100000000 0 0) pBatt0 = true
          from by decide]
    simp only [if_true]
  · rw [update_battery_state_eq]
    rw [show isChargingOf (batteryEnv "" 75000000 100000000 0 0) pBatt0 = false
          from by decide,
        show isDischargingOf (batteryEnv "" 75000000 100000000 0 0) pBatt0 = false
          from by decide, hp75]
    norm_num [DReal.lt_fin_fin, DK_POWER_MIN_CHARGED_PERCENTAGE]
  · rw [update_battery_state_eq]
    rw [show isChargingOf (batteryEnv "" 60000000 100000000 0 0) pBatt0 = false
          from by decide,
        show isDischargingOf (batteryEnv "" 60000000 100000000 0 0) pBatt0 = false
          from by decide, hp60]
    norm_num [DReal.lt_fin_fin, DK_POWER_MIN_CHARGED_PERCENTAGE]
  · rw [update_battery_state_eq]
    rw [show isChargingOf (batteryEnv "discharging" 95000000 100000000 0 0) pBatt0 = false
          from by decide,
        show isDischargingOf (batteryEnv "discharging" 95000000 100000000 0 0) pBatt0 = true
          from by decide]
    norm_num

/-- C2: with `energy_full > 0` the stored percentage is exactly
`100 * energy / energy_full` clamped to [0, 100], hence always within
[0, 100] even when the raw ratio lies outside that range. -/
theorem C2_percentage_clamped (env : SysfsEnv) (p : DevkitPowerSourcePrivate)
    (hfull : 0 < env.getDouble p.native_path "energy_full") :
    ∃ q : ℚ,
      (update_battery env p).1.battery_percentage = DReal.fin q ∧
      q = specPercentage (env.getDouble p.native_path "energy_now" / 1000000)
            (env.getDouble p.native_path "energy_full" / 1000000) ∧
      0 ≤ q ∧ q ≤ 100 := by
  set x := 100 * (env.getDouble p.native_path "energy_now" / 1000000) /
      (env.getDouble p.native_path "energy_full" / 1000000) with hx
  refine ⟨max 0 (min 100 x), ?_, rfl, le_max_left _ _,
    max_le (by norm_num) (min_le_left _ _)⟩
  rw [update_battery_percentage_formula _ _ (ne_of_gt hfull), ← hx]
  by_cases h0 : x < 0
  · rw [if_pos h0]
    rw [min_eq_right (le_of_lt (lt_of_lt_of_le h0 (by norm_num))),
        max_eq_left (le_of_lt h0)]
  · by_cases h100 : 100 < x
    · rw [if_neg h0, if_pos h100]
      rw [min_eq_left (le_of_lt h100)]
      norm_num
    · rw [if_neg h0, if_neg h100]
      rw [min_eq_right (not_lt.mp h100), max_eq_right (not_lt.mp h0)]

/-- C2 witness: a raw ratio of 150 percent is clamped into [0, 100]. -/
theorem C2_percentage_clamped_witness :
    (0 : ℚ) <
      (batteryEnv "" 150000000 100000000 0 0).getDouble pBatt0.native_path "energy_full" ∧
    ∃ q : ℚ,
      (update_battery (batteryEnv "" 150000000 100000000 0 0) pBatt0).1.battery_percentage
        = DReal.fin q ∧
      q = specPercentage
            ((batteryEnv "" 150000000 100000000 0 0).getDouble pBatt0.native_path "energy_now"
              / 1000000)
            ((batteryEnv "" 150000000 100000000 0 0).getDouble pBatt0.native_path "energy_full"
              / 1000000) ∧
      0 ≤ q ∧ q ≤ 100 :=
  ⟨by rw [batteryEnv_getDouble_energy_full]; norm_num,
   C2_percentage_clamped (batteryEnv "" 150000000 100000000 0 0) pBatt0
     (by rw [batteryEnv_getDouble_energy_full]; norm_num)⟩

/-- C3: the stored energy rate is `abs(current_now) / 1e6`, negated exactly
when the status is "charging"; concretely charging at `current_now`
2000000 gives -2, discharging gives 2, and a non-charging rate is
non-negative. -/
theorem C3_energy_rate_sign :
    (∀ (env : SysfsEnv) (p : DevkitPowerSourcePrivate),
      (update_battery env p).1.battery_energy_rate =
        (if isChargingOf env p then
          DReal.fin (-(|env.getDouble p.native_path "current_now"| / 1000000))
         else DReal.fin (|env.getDouble p.native_path "current_now"| / 1000000))) ∧
    (update_battery (batteryEnv "charging" 0 1000000 0 2000000) pBatt0).1.battery_energy_rate
      = DReal.fin (-2) ∧
    (update_battery (batteryEnv "discharging" 0 1000000 0 2000000) pBatt0).1.battery_energy_rate
      = DReal.fin 2 ∧
    (∀ (env : SysfsEnv) (p : DevkitPowerSourcePrivate),
      isChargingOf env p = false →
      ∃ q : ℚ, (update_battery env p).1.battery_energy_rate = DReal.fin q ∧ 0 ≤ q) := by
  refine ⟨fun env p => update_battery_rate_formula env p, ?_, ?_, ?_⟩
  · rw [update_battery_rate_formula]
    rw [show isChargingOf (batteryEnv "charging" 0 1000000 0 2000000) pBatt0 = true
          from by decide]
    rw [batteryEnv_getDouble_current_now]
    norm_num
  · rw [update_battery_rate_formula]
    rw [show isChargingOf (batteryEnv "discharging" 0 1000000 0 2000000) pBatt0 = false
          from by decide]
    rw [batteryEnv_getDouble_current_now]
    norm_num
  · intro env p hc
    rw [update_battery_rate_formula, hc]
    refine ⟨|env.getDouble p.native_path "current_now"| / 1000000, ?_,
      div_nonneg (abs_nonneg _) (by norm_num)⟩
    simp

/-- C3 witness: a non-charging source (empty status) has a non-negative
energy rate. -/
theorem C3_energy_rate_sign_witness :
    ∃ q : ℚ,
      (update_battery (batteryEnv "" 0 1000000 0 5000000) pBatt0).1.battery_energy_rate
        = DReal.fin q ∧ 0 ≤ q :=
  C3_energy_rate_sign.2.2.2 (batteryEnv "" 0 1000000 0 5000000) pBatt0 (by decide)

/-- C6 counterexample: with `energy_full == 0` and `energy_now == 0` the
derivation stores NaN as the percentage — an undefined value, not a
deterministic defined sentinel. -/
theorem C6_counterexample_nan_percentage :
    (update_battery (batteryEnv "" 0 0 0 0) pBatt0).1.battery_percentage = DReal.nan := by
  rw [update_battery_percentage_full_zero _ _ (by rw [batteryEnv_getDouble_energy_full])]
  rw [batteryEnv_getDouble_energy_now]
  norm_num

/-- C6 amended: with `energy_full == 0` the derivation is total and
deterministic, but the percentage is not a single defined sentinel: it is
NaN when `energy_now` is zero, and clamps the resulting infinity to 100
when `energy_now` is positive and to 0 when negative; absent
charging/discharging status the state is FullyCharged for positive
`energy_now` and Empty otherwise. -/
theorem C6_amended_energy_full_zero (env : SysfsEnv) (p : DevkitPowerSourcePrivate)
    (hfull : env.getDouble p.native_path "energy_full" = 0) :
    (update_battery env p).1.battery_percentage =
      (if 0 < env.getDouble p.native_path "energy_now" then DReal.fin 100
       else if env.getDouble p.native_path "energy_now" < 0 then DReal.fin 0
       else DReal.nan) ∧
    (isChargingOf env p = false → isDischargingOf env p = false →
      (update_battery env p).1.battery_state =
        (if 0 < env.getDouble p.native_path "energy_now" then DevkitPowerState.fullyCharged
         else DevkitPowerState.empty)) := by
  have hpct := update_battery_percentage_full_zero env p hfull
  refine ⟨hpct, fun hc hd => ?_⟩
  rw [update_battery_state_eq, hc, hd, hpct]
  by_cases h0 : 0 < env.getDouble p.native_path "energy_now"
  · rw [if_pos h0, if_pos h0]
    rw [show DReal.lt (DReal.fin DK_POWER_MIN_CHARGED_PERCENTAGE) (DReal.fin 100) = true
          from by rw [DReal.lt_fin_fin]; norm_num [DK_POWER_MIN_CHARGED_PERCENTAGE]]
    simp only [Bool.false_eq_true, if_false, if_true]
  · rw [if_neg h0, if_neg h0]
    by_cases hneg : env.getDouble p.native_path "energy_now" < 0
    · rw [if_pos hneg]
      rw [show DReal.lt (DReal.fin DK_POWER_MIN_CHARGED_PERCENTAGE) (DReal.fin 0) = false
            from by rw [DReal.lt_fin_fin]; norm_num [DK_POWER_MIN_CHARGED_PERCENTAGE]]
      simp only [Bool.false_eq_true, if_false]
    · rw [if_neg hneg, DReal.lt_nan_right]
      simp only [Bool.false_eq_true, if_false]

/-- C6 witness: `energy_full == 0` with positive `energy_now` gives a
percentage clamped to 100 and a FullyCharged state. -/
theorem C6_amended_energy_full_zero_witness :
    (update_battery (batteryEnv "" 7000000 0 0 0) pBatt0).1.battery_percentage
      = DReal.fin 100 ∧
    (update_battery (batteryEnv "" 7000000 0 0 0) pBatt0).1.battery_state
      = DevkitPowerState.fullyCharged := by
  have h := C6_amended_energy_full_zero (batteryEnv "" 7000000 0 0 0) pBatt0
    (by rw [batteryEnv_getDouble_energy_full])
  constructor
  · have h1 := h.1
    rw [batteryEnv_getDouble_energy_now] at h1
    rw [h1, if_pos (by norm_num : (0:ℚ) < 7000000)]
  · have h2 := h.2 (by decide) (by decide)
    rw [batteryEnv_getDouble_energy_now] at h2
    rw [h2, if_pos (by norm_num : (0:ℚ) < 7000000)]

/-- `dropWhile` is the identity when no element satisfies the predicate. -/
lemma dropWhile_eq_self_of_all {α : Type} (p : α → Bool) (l : List α)
    (h : ∀ a ∈ l, p a = false) : l.dropWhile p = l := by
  cases l with
  | nil => rfl
  | cons a as => simp [List.dropWhile_cons, h a (List.mem_cons_self a as)]

/-- `g_path_get_basename` output shape: either the degenerate "/" (for an
empty or all-separator path), or a nonempty string without separators. -/
lemma g_path_get_basename_shape (s : String) :
    g_path_get_basename s = "/" ∨
    ((g_path_get_basename s).data ≠ [] ∧
     ∀ c ∈ (g_path_get_basename s).data, (c == '/') = false) := by
  unfold g_path_get_basename
  by_cases h1 : s.data.isEmpty
  · right
    rw [if_pos h1]
    exact ⟨by decide, by decide⟩
  · rw [if_neg (by simp [h1])]
    by_cases h2 : (s.data.reverse.dropWhile (fun c => c == '/')).isEmpty
    · left
      rw [if_pos h2]
    · right
      rw [if_neg (by simp [h2])]
      have hne : s.data.reverse.dropWhile (fun c => c == '/') ≠ [] := by
        simpa [List.isEmpty_iff] using h2
      constructor
      · obtain ⟨c, cs, hcc⟩ := List.exists_cons_of_ne_nil hne
        have hc : ((c == '/') : Bool) = false := by
          have hh := List.head_dropWhile_not (fun c => c == '/') s.data.reverse hne
          simp only [hcc, List.head_cons] at hh
          simpa using hh
        simp only [hcc, List.takeWhile_cons, hc]
        simp
      · intro c hc
        simp only [String.data] at hc
        rw [List.mem_reverse] at hc
        have := List.mem_takeWhile_imp hc
        simpa using this

/-- `g_path_get_basename` is the identity on a nonempty separator-free
string. -/
lemma g_path_get_basename_of_no_slash (b : String) (hne : b.data ≠ [])
    (hall : ∀ c ∈ b.data, (c == '/') = false) : g_path_get_basename b = b := by
  obtain ⟨bd⟩ := b
  simp only [String.data] at hne hall
  unfold g_path_get_basename
  have hdrop : bd.reverse.dropWhile (fun c => c == '/') = bd.reverse :=
    dropWhile_eq_self_of_all _ _ (fun a ha => hall a (List.mem_reverse.mp ha))
  have htake : bd.reverse.takeWhile (fun c => !(c == '/')) = bd.reverse := by
    rw [List.takeWhile_eq_self_iff]
    intro x hx
    rw [List.mem_reverse] at hx
    simp [hall _ hx]
  simp only [String.data]
  rw [if_neg (by simp [List.isEmpty_iff, hne]), hdrop,
      if_neg (by simp [List.isEmpty_iff, hne]), htake, List.reverse_reverse]

/-- Joining "/sources/" with a nonempty separator-free component is plain
string concatenation. -/
lemma g_build_filename2_sources (b : String) (hne : b.data ≠ [])
    (hall : ∀ c ∈ b.data, (c == '/') = false) :
    g_build_filename2 "/sources/" b = "/sources/" ++ b := by
  unfold g_build_filename2
  have hdrop : b.data.dropWhile (fun c => c == '/') = b.data :=
    dropWhile_eq_self_of_all _ _ hall
  rw [hdrop, if_neg (by simp [List.isEmpty_iff, hne])]
  rfl

lemma data_mk (l : List Char) : (String.mk l).data = l := rfl

/-- Characters of the joined path come from the fixed prefix, the
separator, or the second component. -/
lemma mem_g_build_filename2_sources (c : Char) (b : String)
    (h : c ∈ (g_build_filename2 "/sources/" b).data) :
    c ∈ ("/sources".data : List Char) ∨ c = '/' ∨ c ∈ b.data := by
  unfold g_build_filename2 at h
  by_cases he : (b.data.dropWhile (fun c => c == '/')).isEmpty
  · rw [if_pos he] at h
    simp only [data_mk] at h
    rw [show ("/sources/".data.reverse.dropWhile (fun c => c == '/')).reverse
          = "/sources".data from by decide] at h
    exact Or.inl h
  · rw [if_neg he] at h
    simp only [data_mk] at h
    rw [show ("/sources/".data.reverse.dropWhile (fun c => c == '/')).reverse
          = "/sources".data from by decide] at h
    rcases List.mem_append.mp h with h1 | h1
    · exact Or.inl h1
    · rcases List.mem_cons.mp h1 with h2 | h2
      · exact Or.inr (Or.inl h2)
      · exact Or.inr (Or.inr ((List.dropWhile_suffix _).sublist.subset h2))

/-- C4: the object path is "/sources/" plus the final path segment of
`native_path` with every '-' replaced by '_'; the derivation is a pure
function of the basename and its result never contains a '-'. -/
theorem C4_object_path_derivation (native_path : String) :
    (∀ q : String, g_path_get_basename native_path = g_path_get_basename q →
      compute_object_path native_path = compute_object_path q) ∧
    (∀ c ∈ (compute_object_path native_path).data, c ≠ '-') ∧
    (g_path_get_basename native_path ≠ "/" →
      compute_object_path native_path =
        "/sources/" ++ String.mk ((g_path_get_basename native_path).data.map
          (fun c => if c == '-' then '_' else c))) := by
  refine ⟨?_, ?_, ?_⟩
  · intro q h
    unfold compute_object_path
    rw [h]
  · intro c hc
    unfold compute_object_path compute_object_path_from_basename at hc
    rcases mem_g_build_filename2_sources c _ hc with h | h | h
    · have hall : ∀ x ∈ ("/sources".data : List Char), x ≠ '-' := by decide
      exact hall c h
    · rw [h]; decide
    · simp only [data_mk] at h
      obtain ⟨a, _, rfl⟩ := List.mem_map.mp h
      by_cases hd : (a == '-') = true
      · rw [if_pos hd]; decide
      · rw [if_neg hd]
        simpa using hd
  · intro h
    obtain ⟨hne, hall⟩ := (g_path_get_basename_shape native_path).resolve_left h
    have hidem := g_path_get_basename_of_no_slash _ hne hall
    unfold compute_object_path compute_object_path_from_basename
    rw [hidem]
    apply g_build_filename2_sources
    · simp only [data_mk]
      intro hmap
      exact hne (List.map_eq_nil_iff.mp hmap)
    · intro c hcmem
      simp only [data_mk] at hcmem
      obtain ⟨a, ha, rfl⟩ := List.mem_map.mp hcmem
      by_cases hd : (a == '-') = true
      · rw [if_pos hd]; decide
      · rw [if_neg hd]
        exact hall a ha

/-- C4 witness: a concrete device path with a dash, its bit-exact object
path, and basename-determinism across two different directories. -/
theorem C4_object_path_derivation_witness :
    compute_object_path "/sys/devices/dm-0" =
      "/sources/" ++ String.mk ((g_path_get_basename "/sys/devices/dm-0").data.map
        (fun c => if c == '-' then '_' else c)) ∧
    compute_object_path "/sys/devices/dm-0" = compute_object_path "platform/dm-0" ∧
    compute_object_path "/sys/devices/dm-0" = "/sources/dm_0" :=
  ⟨(C4_object_path_derivation "/sys/devices/dm-0").2.2 (by decide),
   (C4_object_path_derivation "/sys/devices/dm-0").1 "platform/dm-0" (by decide),
   by decide⟩

lemma update_battery_poll_timer_id (env : SysfsEnv) (p : DevkitPowerSourcePrivate) :
    (update_battery env p).1.poll_timer_id = p.poll_timer_id := rfl

lemma update_battery_type (env : SysfsEnv) (p : DevkitPowerSourcePrivate) :
    (update_battery env p).1.type = p.type := rfl

lemma update_line_power_type (env : SysfsEnv) (p : DevkitPowerSourcePrivate) :
    (update_line_power env p).1.type = p.type := rfl

lemma update_read_static_fields_type (env : SysfsEnv) (p : DevkitPowerSourcePrivate) :
    (update_read_static_fields env p).type = p.type := rfl

/-- `update` always reports success: both branch functions end in TRUE. -/
lemma update_snd (env : SysfsEnv) (now : ℕ) (w : World) : (update env now w).2 = true := by
  unfold update
  by_cases h0 : 0 < w.src.poll_timer_id <;> by_cases hv : w.src.vendor = none <;>
    cases htype : w.src.type <;>
      simp [h0, hv, htype, update_read_static_fields, update_line_power, update_battery_snd]

/-- `update` bumps the update counter and leaves the notification and reply
counters alone. -/
lemma update_counts (env : SysfsEnv) (now : ℕ) (w : World) :
    (update env now w).1.updateCount = w.updateCount + 1 ∧
    (update env now w).1.notifyCount = w.notifyCount ∧
    (update env now w).1.repliesSent = w.repliesSent := by
  unfold update
  by_cases h0 : 0 < w.src.poll_timer_id <;> by_cases hv : w.src.vendor = none <;>
    cases htype : w.src.type <;>
      simp [h0, hv, htype, update_read_static_fields]

/-- Timer effect of `update` on a battery source. -/
lemma update_loop_battery (env : SysfsEnv) (now : ℕ) (w : World)
    (h : w.src.type = DevkitPowerType.battery) :
    (update env now w).1.loop =
      { nextId := (loopAfterDisarm w).nextId + 1,
        armed := (loopAfterDisarm w).armed ++ [((loopAfterDisarm w).nextId, 30)] } ∧
    (update env now w).1.src.poll_timer_id = (loopAfterDisarm w).nextId := by
  unfold update loopAfterDisarm
  by_cases h0 : 0 < w.src.poll_timer_id <;> by_cases hv : w.src.vendor = none <;>
    simp [h0, hv, h, update_read_static_fields, g_timeout_add_seconds]

/-- Timer effect of `update` on a line-power source. -/
lemma update_loop_line_power (env : SysfsEnv) (now : ℕ) (w : World)
    (h : w.src.type = DevkitPowerType.linePower) :
    (update env now w).1.loop = loopAfterDisarm w ∧
    (update env now w).1.src.poll_timer_id = 0 := by
  unfold update loopAfterDisarm
  by_cases h0 : 0 < w.src.poll_timer_id <;> by_cases hv : w.src.vendor = none <;>
    simp [h0, hv, h, update_read_static_fields, update_line_power] <;> omega

/-- `update` does not change the device type. -/
lemma update_type (env : SysfsEnv) (now : ℕ) (w : World) :
    (update env now w).1.src.type = w.src.type := by
  unfold update
  by_cases h0 : 0 < w.src.poll_timer_id <;> by_cases hv : w.src.vendor = none <;>
    cases htype : w.src.type <;>
      simp [h0, hv, htype, update_read_static_fields, update_line_power_type,
        update_battery_type]

/-- Under the timer invariant, disarming leaves no armed source and keeps
`nextId`. -/
lemma loopAfterDisarm_of_inv (w : World) (hinv : timerInv w) :
    (loopAfterDisarm w).armed = [] ∧ (loopAfterDisarm w).nextId = w.loop.nextId := by
  obtain ⟨h1, h2, h3⟩ := hinv
  unfold loopAfterDisarm
  rcases h3 with ⟨hz, ha⟩ | ⟨hz, ha⟩
  · rw [hz]
    simp [ha, g_source_remove]
  · have h0 : 0 < w.src.poll_timer_id := Nat.pos_of_ne_zero hz
    rw [if_pos h0]
    simp [g_source_remove, ha]

/-- Full timer bookkeeping of one `update` under the invariant: the
invariant is preserved, a battery update leaves exactly one fresh 30-second
timer, a line-power update leaves none, and a previously armed timer id is
never armed afterwards. -/
lemma update_timer_facts (env : SysfsEnv) (now : ℕ) (w : World) (hinv : timerInv w) :
    timerInv (update env now w).1 ∧
    (w.src.type = DevkitPowerType.battery →
      (update env now w).1.loop.armed = [((update env now w).1.src.poll_timer_id, 30)] ∧
      (update env now w).1.src.poll_timer_id ≠ 0) ∧
    (w.src.type = DevkitPowerType.linePower →
      (update env now w).1.loop.armed = [] ∧ (update env now w).1.src.poll_timer_id = 0) ∧
    (w.src.poll_timer_id ≠ 0 →
      ∀ t ∈ (update env now w).1.loop.armed, t.1 ≠ w.src.poll_timer_id) := by
  obtain ⟨hd1, hd2⟩ := loopAfterDisarm_of_inv w hinv
  obtain ⟨hn1, hlt, _⟩ := hinv
  cases htype : w.src.type
  · obtain ⟨hl, hp⟩ := update_loop_line_power env now w htype
    refine ⟨⟨?_, ?_, Or.inl ⟨hp, ?_⟩⟩, ?_, fun _ => ⟨by rw [hl, hd1], hp⟩, ?_⟩
    · rw [hl, hd2]; exact hn1
    · rw [hl, hd2, hp]; exact Nat.lt_of_lt_of_le Nat.zero_lt_one hn1
    · rw [hl, hd1]
    · intro hb; cases hb
    · intro hz t ht
      rw [hl, hd1] at ht
      cases ht
  · obtain ⟨hl, hp⟩ := update_loop_battery env now w htype
    have harm : (update env now w).1.loop.armed = [(w.loop.nextId, 30)] := by
      rw [hl, hd1, hd2]
      rfl
    have hpid : (update env now w).1.src.poll_timer_id = w.loop.nextId := by
      rw [hp, hd2]
    refine ⟨⟨?_, ?_, Or.inr ⟨?_, ?_⟩⟩, fun _ => ⟨?_, ?_⟩, ?_, ?_⟩
    · rw [hl]
      exact Nat.le_succ_of_le (by rw [hd2]; exact hn1)
    · rw [hl, hpid]
      simp [hd2]
    · rw [hpid]
      exact Nat.pos_iff_ne_zero.mp (Nat.lt_of_lt_of_le Nat.zero_lt_one hn1)
    · rw [harm, hpid]
    · rw [harm, hpid]
    · rw [hpid]
      exact Nat.pos_iff_ne_zero.mp (Nat.lt_of_lt_of_le Nat.zero_lt_one hn1)
    · intro hlp; cases hlp
    · intro hz t ht
      rw [harm] at ht
      rcases List.mem_singleton.mp ht with rfl
      exact ne_of_gt hlt

lemma emit_changed_loop (w : World) : (emit_changed w).loop = w.loop := rfl

lemma g_source_remove_armed (id : ℕ) (ml : MainLoop) :
    (g_source_remove id ml).armed = ml.armed.filter (fun t => !(t.1 == id)) := rfl

lemma g_source_remove_nextId (id : ℕ) (ml : MainLoop) :
    (g_source_remove id ml).nextId = ml.nextId := rfl

/-- A change-driven update always keeps the source. -/
lemma changed_snd (env : SysfsEnv) (now : ℕ) (w : World) :
    (devkit_power_source_changed env now w).2 = true := by
  unfold devkit_power_source_changed
  simp [update_snd]

/-- A change-driven update emits exactly one change notification. -/
lemma changed_notify (env : SysfsEnv) (now : ℕ) (w : World) :
    (devkit_power_source_changed env now w).1.notifyCount = w.notifyCount + 1 := by
  unfold devkit_power_source_changed
  simp [update_snd, emit_changed, (update_counts env now w).2.1]

/-- A change-driven update has the same timer effect as `update`. -/
lemma changed_loop (env : SysfsEnv) (now : ℕ) (w : World) :
    (devkit_power_source_changed env now w).1.loop = (update env now w).1.loop := by
  unfold devkit_power_source_changed
  simp [update_snd, emit_changed]

/-- C5 counterexample: with every mandatory attribute missing, the initial
update still succeeds and `devkit_power_source_new` publishes an object —
populated with defaults (the vendor reads as the empty string). -/
theorem C5_counterexample_missing_attrs_published :
    (devkit_power_source_new missingAttrEnv 0 "BAT0" true loop0).isSome = true ∧
    newSourceVendor (devkit_power_source_new missingAttrEnv 0 "BAT0" true loop0)
      = some (some "") := by
  constructor <;> decide

/-- C5 amended: `devkit_power_source_new` publishes an object exactly when
bus registration succeeds; the initial update always succeeds, even with
every attribute missing, so construction never fails on missing
attributes. -/
theorem C5_amended_construction (env : SysfsEnv) (now : ℕ) (np : String)
    (busOk : Bool) (loop : MainLoop) :
    (devkit_power_source_new env now np busOk loop).isSome = busOk := by
  cases busOk <;>
    simp [devkit_power_source_new, update_snd, register_power_source]

/-- C7: every source has at most one armed poll timer: `update` preserves
the single-timer invariant, a battery update leaves exactly one fresh
30-second timer, a line-power update leaves none, and the previously armed
timer id is never armed afterwards. -/
theorem C7_single_poll_timer (env : SysfsEnv) (now : ℕ) (w : World) (hinv : timerInv w) :
    timerInv (update env now w).1 ∧
    (update env now w).1.loop.armed.length ≤ 1 ∧
    (w.src.type = DevkitPowerType.battery →
      (update env now w).1.loop.armed = [((update env now w).1.src.poll_timer_id, 30)] ∧
      (update env now w).1.src.poll_timer_id ≠ 0) ∧
    (w.src.type = DevkitPowerType.linePower →
      (update env now w).1.loop.armed = [] ∧
      (update env now w).1.src.poll_timer_id = 0) ∧
    (w.src.poll_timer_id ≠ 0 →
      ∀ t ∈ (update env now w).1.loop.armed, t.1 ≠ w.src.poll_timer_id) := by
  obtain ⟨h1, h2, h3, h4⟩ := update_timer_facts env now w hinv
  refine ⟨h1, ?_, h2, h3, h4⟩
  rcases h1.2.2 with ⟨_, ha⟩ | ⟨_, ha⟩ <;> simp [ha]

/-- C7 witness: a battery world with one armed timer satisfies the
invariant and keeps exactly one timer across an update. -/
theorem C7_single_poll_timer_witness :
    timerInv wBatt1 ∧
    (timerInv (update missingAttrEnv 5 wBatt1).1 ∧
     (update missingAttrEnv 5 wBatt1).1.loop.armed.length ≤ 1 ∧
     (wBatt1.src.type = DevkitPowerType.battery →
       (update missingAttrEnv 5 wBatt1).1.loop.armed =
         [((update missingAttrEnv 5 wBatt1).1.src.poll_timer_id, 30)] ∧
       (update missingAttrEnv 5 wBatt1).1.src.poll_timer_id ≠ 0) ∧
     (wBatt1.src.type = DevkitPowerType.linePower →
       (update missingAttrEnv 5 wBatt1).1.loop.armed = [] ∧
       (update missingAttrEnv 5 wBatt1).1.src.poll_timer_id = 0) ∧
     (wBatt1.src.poll_timer_id ≠ 0 →
       ∀ t ∈ (update missingAttrEnv 5 wBatt1).1.loop.armed,
         t.1 ≠ wBatt1.src.poll_timer_id)) :=
  have hinv : timerInv wBatt1 := ⟨by decide, by decide, Or.inr ⟨by decide, by decide⟩⟩
  ⟨hinv, C7_single_poll_timer missingAttrEnv 5 wBatt1 hinv⟩

/-- C8: a firing poll timer triggers exactly one additional update and one
change notification and restores the single-timer invariant; and a
device-change event cancels the pending timer, so that timer id can no
longer fire. -/
theorem C8_poll_fire_and_cancel (env env2 : SysfsEnv) (now now2 : ℕ) (w : World) (i : ℕ)
    (hinv : timerInv w) (hid : w.src.poll_timer_id = i) (hi : i ≠ 0)
    (htype : w.src.type = DevkitPowerType.battery) :
    (fire_poll_timer env now i w).updateCount = w.updateCount + 1 ∧
    (fire_poll_timer env now i w).notifyCount = w.notifyCount + 1 ∧
    timerInv (fire_poll_timer env now i w) ∧
    (∀ t ∈ (devkit_power_source_changed env2 now2 w).1.loop.armed, t.1 ≠ i) := by
  have hinvKeep := hinv
  have hz : w.src.poll_timer_id ≠ 0 := by rw [hid]; exact hi
  obtain ⟨hn1, hlt0, hcase⟩ := hinv
  rcases hcase with ⟨hz0, _⟩ | ⟨_, harm⟩
  · exact absurd hz0 hz
  · rw [hid] at harm hlt0
    have htype0 : ({ w with src := { w.src with poll_timer_id := 0 } } : World).src.type
        = DevkitPowerType.battery := htype
    obtain ⟨hl, hp⟩ := update_loop_battery env now _ htype0
    have hlad : loopAfterDisarm { w with src := { w.src with poll_timer_id := 0 } } = w.loop := by
      unfold loopAfterDisarm
      simp
    rw [hlad] at hl hp
    obtain ⟨hc1, hc2, _⟩ := update_counts env now { w with src := { w.src with poll_timer_id := 0 } }
    have hni : w.loop.nextId ≠ i := ne_of_gt hlt0
    have hbn : ((w.loop.nextId == i) : Bool) = false := beq_eq_false_iff_ne.mpr hni
    have hfl : (fire_poll_timer env now i w).loop =
        g_source_remove i
          (update env now { w with src := { w.src with poll_timer_id := 0 } }).1.loop := rfl
    have hfp : (fire_poll_timer env now i w).src.poll_timer_id =
        (update env now { w with src := { w.src with poll_timer_id := 0 } }).1.src.poll_timer_id :=
      rfl
    refine ⟨?_, ?_, ⟨?_, ?_, Or.inr ⟨?_, ?_⟩⟩, ?_⟩
    · exact hc1
    · show (update env now { w with src := { w.src with poll_timer_id := 0 } }).1.notifyCount + 1
        = w.notifyCount + 1
      rw [hc2]
    · rw [hfl, g_source_remove_nextId, hl]
      exact Nat.le_succ_of_le hn1
    · rw [hfl, hfp, hp, g_source_remove_nextId, hl]
      exact Nat.lt_succ_self _
    · rw [hfp, hp]
      omega
    · rw [hfl, hfp, hp, g_source_remove_armed, hl]
      show ((w.loop.armed ++ [(w.loop.nextId, 30)]).filter (fun t => !(t.1 == i)))
        = [(w.loop.nextId, 30)]
      rw [harm]
      simp [List.filter_cons, hbn]
    · intro t ht
      rw [changed_loop] at ht
      have h5 := (update_timer_facts env2 now2 w hinvKeep).2.2.2 hz t ht
      rw [hid] at h5
      exact h5

/-- C8 witness: in a battery world with timer id 1 armed, firing it does
one update and one notification, and a change event cancels id 1. -/
theorem C8_poll_fire_and_cancel_witness :
    (timerInv wBatt1 ∧ wBatt1.src.poll_timer_id = 1 ∧ (1 : ℕ) ≠ 0 ∧
      wBatt1.src.type = DevkitPowerType.battery) ∧
    ((fire_poll_timer missingAttrEnv 7 1 wBatt1).updateCount = wBatt1.updateCount + 1 ∧
     (fire_poll_timer missingAttrEnv 7 1 wBatt1).notifyCount = wBatt1.notifyCount + 1 ∧
     timerInv (fire_poll_timer missingAttrEnv 7 1 wBatt1) ∧
     (∀ t ∈ (devkit_power_source_changed missingAttrEnv 9 wBatt1).1.loop.armed, t.1 ≠ 1)) :=
  have hinv : timerInv wBatt1 := ⟨by decide, by decide, Or.inr ⟨by decide, by decide⟩⟩
  ⟨⟨hinv, rfl, by decide, rfl⟩,
   C8_poll_fire_and_cancel missingAttrEnv missingAttrEnv 7 9 wBatt1 1 hinv rfl (by decide) rfl⟩

/-- C9: `Refresh` forces exactly one update and then replies synchronously,
emitting no change notification itself; change-driven and poll-driven
updates are the ones that notify. -/
theorem C9_refresh_no_notification (env : SysfsEnv) (now : ℕ) (w : World) :
    (devkit_power_source_refresh env now w).1.updateCount = w.updateCount + 1 ∧
    (devkit_power_source_refresh env now w).1.notifyCount = w.notifyCount ∧
    (devkit_power_source_refresh env now w).1.repliesSent = w.repliesSent + 1 ∧
    (devkit_power_source_refresh env now w).2 = true ∧
    (devkit_power_source_changed env now w).1.notifyCount = w.notifyCount + 1 ∧
    (poll_battery_callback env now w).1.notifyCount = w.notifyCount + 1 := by
  obtain ⟨h1, h2, h3⟩ := update_counts env now w
  refine ⟨h1, h2, ?_, rfl, changed_notify env now w, ?_⟩
  · show (update env now w).1.repliesSent + 1 = w.repliesSent + 1
    rw [h3]
  · show (update env now { w with src := { w.src with poll_timer_id := 0 } }).1.notifyCount + 1
      = w.notifyCount + 1
    rw [(update_counts env now _).2.1]

/-- C10: `update_line_power` and `update_battery` unconditionally succeed,
so `update` always succeeds and a change-driven update always reports
"keep" (and notifies) — it never requests removal of the source. -/
theorem C10_updates_always_succeed (env : SysfsEnv) (now : ℕ) (w : World)
    (p : DevkitPowerSourcePrivate) :
    (update_line_power env p).2 = true ∧
    (update_battery env p).2 = true ∧
    (update env now w).2 = true ∧
    (devkit_power_source_changed env now w).2 = true ∧
    (devkit_power_source_changed env now w).1.notifyCount = w.notifyCount + 1 :=
  ⟨rfl, rfl, update_snd env now w, changed_snd env now w, changed_notify env now w⟩

end DevkitPower
